import Mathlib

/-!
Verification of the parametric bridge model (bridge_model.py).

The embedding models the layout arithmetic, component creation, placement
and assembly steps of the source. Numeric parameters are modelled with
exact rationals. Calls to the external CAD kernel are modelled by
recording, on each component, the list of affine transformations applied
to its solid handle since creation; a freshly created solid carries the
empty list. Attributes that the Python code sets only later
(deck_width, girder_positions_y, deck_z_level, deck, assembly_shape) are
Option-valued, and methods that would raise on a missing attribute or a
missing shape return Option.
-/

namespace BridgeSpec

/-- Module-level constant SPAN_LENGTH_L from the source. -/
def SPAN_LENGTH_L : ℚ := 12000

/-- Module-level constant N_GIRDERS from the source. -/
def N_GIRDERS : ℤ := 3

/-- Module-level constant GIRDER_CENTROID_SPACING from the source. -/
def GIRDER_CENTROID_SPACING : ℚ := 3000

/-- Module-level constant GIRDER_OFFSET_FROM_EDGE from the source. -/
def GIRDER_OFFSET_FROM_EDGE : ℚ := 500

/-- Module-level constant SKEW_ANGLE from the source. -/
def SKEW_ANGLE : ℚ := 10

/-- Module-level constant GIRDER_SECTION_D from the source. -/
def GIRDER_SECTION_D : ℚ := 900

/-- Module-level constant GIRDER_SECTION_BF from the source. -/
def GIRDER_SECTION_BF : ℚ := 300

/-- Module-level constant GIRDER_SECTION_TF from the source. -/
def GIRDER_SECTION_TF : ℚ := 16

/-- Module-level constant GIRDER_SECTION_TW from the source. -/
def GIRDER_SECTION_TW : ℚ := 10

/-- Module-level constant DECK_THICKNESS from the source. -/
def DECK_THICKNESS : ℚ := 200

/-- Module-level constant PARAPET_WIDTH from the source. -/
def PARAPET_WIDTH : ℚ := 300

/-- Module-level constant PARAPET_HEIGHT from the source. -/
def PARAPET_HEIGHT : ℚ := 1000

/-- An affine transformation applied to a component shape via
BRepBuilderAPI_Transform: either a translation (BridgeComponent.translate)
or a rotation about an axis (BridgeComponent.rotate). -/
inductive Op where
  | translate (dx dy dz : ℚ)
  | rotate (px py pz ax ay az : ℚ) (angle_deg : ℚ)
deriving DecidableEq

/-- A solid handle, modelled as the history of transformations applied to
the created solid (the created geometry itself carries no transform). -/
abbrev Shape := List Op

/-- Applying a transformation to a stored handle (None means the Python
code would pass None to the kernel and fail). -/
def applyTransform (s : Option Shape) (op : Op) : Option Shape :=
  s.map (fun ops => ops ++ [op])

/-- Girder component: I-section dimensions, span length and shape handle. -/
structure Girder where
  d : ℚ
  bf : ℚ
  tf : ℚ
  tw : ℚ
  length : ℚ
  shape : Option Shape
deriving DecidableEq

/-- Girder.create_geometry: builds the I-section and stores the handle. -/
def Girder.create_geometry (g : Girder) : Girder :=
  { g with shape := some [] }

/-- BridgeComponent.translate as inherited by Girder. -/
def Girder.translate (g : Girder) (dx dy dz : ℚ) : Option Girder :=
  (applyTransform g.shape (Op.translate dx dy dz)).map
    (fun s => { g with shape := some s })

/-- BridgeComponent.rotate as inherited by Girder. -/
def Girder.rotate (g : Girder) (px py pz ax ay az angle_deg : ℚ) :
    Option Girder :=
  (applyTransform g.shape (Op.rotate px py pz ax ay az angle_deg)).map
    (fun s => { g with shape := some s })

/-- Deck component: width, thickness, span length and shape handle. -/
structure Deck where
  width : ℚ
  thickness : ℚ
  length : ℚ
  shape : Option Shape
deriving DecidableEq

/-- Deck.create_geometry: builds the rectangular prism and stores it. -/
def Deck.create_geometry (d : Deck) : Deck :=
  { d with shape := some [] }

/-- BridgeComponent.translate as inherited by Deck. -/
def Deck.translate (d : Deck) (dx dy dz : ℚ) : Option Deck :=
  (applyTransform d.shape (Op.translate dx dy dz)).map
    (fun s => { d with shape := some s })

/-- Parapet component: width, height, span length and shape handle. -/
structure Parapet where
  width : ℚ
  height : ℚ
  length : ℚ
  shape : Option Shape
deriving DecidableEq

/-- Parapet.create_geometry: builds the rectangular prism and stores it. -/
def Parapet.create_geometry (p : Parapet) : Parapet :=
  { p with shape := some [] }

/-- BridgeComponent.translate as inherited by Parapet. -/
def Parapet.translate (p : Parapet) (dx dy dz : ℚ) : Option Parapet :=
  (applyTransform p.shape (Op.translate dx dy dz)).map
    (fun s => { p with shape := some s })

/-- The BridgeModel state: constructor parameters, the component lists,
the assembly compound, and the layout attributes set by compute_layout. -/
structure BridgeModel where
  span_length : ℚ
  n_girders : ℤ
  spacing : ℚ
  overhang : ℚ
  skew_angle : ℚ
  girder_section_d : ℚ
  girder_section_bf : ℚ
  girder_section_tf : ℚ
  girder_section_tw : ℚ
  deck_thickness : ℚ
  girders : List Girder
  parapets : List Parapet
  deck : Option Deck
  assembly_shape : Option (List Shape)
  deck_width : Option ℚ
  girder_positions_y : Option (List ℚ)
  deck_z_level : Option ℚ
deriving DecidableEq

/-- BridgeModel.__init__: stores the ten parameters and initialises
girders = [], parapets = [], deck = None, assembly_shape = None; the
layout attributes do not exist yet (modelled as none). -/
def mkBridgeModel (span_length : ℚ) (n_girders : ℤ)
    (spacing overhang skew_angle : ℚ)
    (girder_section_d girder_section_bf girder_section_tf
     girder_section_tw deck_thickness : ℚ) : BridgeModel :=
  { span_length := span_length
    n_girders := n_girders
    spacing := spacing
    overhang := overhang
    skew_angle := skew_angle
    girder_section_d := girder_section_d
    girder_section_bf := girder_section_bf
    girder_section_tf := girder_section_tf
    girder_section_tw := girder_section_tw
    deck_thickness := deck_thickness
    girders := []
    parapets := []
    deck := none
    assembly_shape := none
    deck_width := none
    girder_positions_y := none
    deck_z_level := none }

/-- The deck width formula of compute_layout:
spacing * (n_girders - 1) + 2 * overhang. -/
def deckWidth (n : ℤ) (s ov : ℚ) : ℚ :=
  s * ((n : ℚ) - 1) + 2 * ov

/-- The girder Y positions of compute_layout: start_y + i * spacing for
i in range(n_girders), with start_y = -spacing * (n_girders - 1) / 2.
Python range over an int n yields n.toNat indices. -/
def girderPositions (n : ℤ) (s : ℚ) : List ℚ :=
  (List.range n.toNat).map
    (fun (i : ℕ) => -s * ((n : ℚ) - 1) / 2 + (i : ℚ) * s)

/-- BridgeModel.compute_layout: deck_width, girder Y positions and deck
Z level (equal to the girder section depth). -/
def BridgeModel.compute_layout (m : BridgeModel) : BridgeModel :=
  { m with
    deck_width := some (deckWidth m.n_girders m.spacing m.overhang)
    girder_positions_y := some (girderPositions m.n_girders m.spacing)
    deck_z_level := some m.girder_section_d }

/-- BridgeModel.create_components: append one girder per Y position,
replace the deck, and append two parapets with the module constants
PARAPET_WIDTH and PARAPET_HEIGHT. Reads girder_positions_y and
deck_width, which raise AttributeError when compute_layout has not run. -/
def BridgeModel.create_components (m : BridgeModel) : Option BridgeModel := do
  let ys ← m.girder_positions_y
  let dw ← m.deck_width
  let newGirders := ys.map (fun _ =>
    (Girder.mk m.girder_section_d m.girder_section_bf m.girder_section_tf
      m.girder_section_tw m.span_length none).create_geometry)
  let newDeck := (Deck.mk dw m.deck_thickness m.span_length none).create_geometry
  let newParapets := (List.range 2).map (fun _ =>
    (Parapet.mk PARAPET_WIDTH PARAPET_HEIGHT m.span_length none).create_geometry)
  some { m with
    girders := m.girders ++ newGirders
    deck := some newDeck
    parapets := m.parapets ++ newParapets }

/-- The girder loop of position_components: zip(girders, positions)
translates each paired girder in place; pairing stops at the shorter
list, so unpaired girders stay untouched and unpaired positions are
ignored. -/
def translateGirders : List Girder → List ℚ → Option (List Girder)
  | [], _ => some []
  | gs, [] => some gs
  | g :: gs, y :: ys => do
    let g2 ← g.translate 0 y 0
    let gs2 ← translateGirders gs ys
    some (g2 :: gs2)

/-- BridgeModel.position_components: translate each girder paired with its
Y position, translate the deck, and translate parapets 0 and 1 (an
IndexError when fewer than two parapets exist). -/
def BridgeModel.position_components (m : BridgeModel) : Option BridgeModel := do
  let ys ← m.girder_positions_y
  let dw ← m.deck_width
  let dz ← m.deck_z_level
  let positioned ← translateGirders m.girders ys
  let d ← m.deck
  let d2 ← d.translate 0 (-dw / 2) dz
  let parapet_z := dz + m.deck_thickness
  let half_w := dw / 2
  match m.parapets with
  | p0 :: p1 :: ps => do
    let q0 ← p0.translate 0 (-half_w - PARAPET_WIDTH / 2) parapet_z
    let q1 ← p1.translate 0 (half_w - PARAPET_WIDTH / 2) parapet_z
    some { m with
      girders := positioned
      deck := some d2
      parapets := q0 :: q1 :: ps }
  | _ => none

/-- The girder loop of assemble: builder.Add requires each handle. -/
def girderShapes : List Girder → Option (List Shape)
  | [] => some []
  | g :: gs => do
    let s ← g.shape
    let ss ← girderShapes gs
    some (s :: ss)

/-- The parapet loop of assemble: builder.Add requires each handle. -/
def parapetShapes : List Parapet → Option (List Shape)
  | [] => some []
  | p :: ps => do
    let s ← p.shape
    let ss ← parapetShapes ps
    some (s :: ss)

/-- BridgeModel.assemble: add every girder shape, the deck shape and every
parapet shape, in that order, to a fresh compound. -/
def BridgeModel.assemble (m : BridgeModel) : Option BridgeModel := do
  let gshapes ← girderShapes m.girders
  let d ← m.deck
  let dshape ← d.shape
  let pshapes ← parapetShapes m.parapets
  some { m with assembly_shape := some (gshapes ++ [dshape] ++ pshapes) }

/-- BridgeModel.display: renders the shapes; it only reads component
handles and changes no model state, so it is the identity here. -/
def BridgeModel.display (m : BridgeModel) : BridgeModel := m

/-- BridgeModel.export (a Lean keyword, hence the name): writes STEP and
BREP files; it only reads assembly_shape and changes no model state. -/
def BridgeModel.exportFiles (m : BridgeModel) : BridgeModel := m

/-- The bridge built by main() from the module constants. -/
def defaultBridge : BridgeModel :=
  mkBridgeModel SPAN_LENGTH_L N_GIRDERS GIRDER_CENTROID_SPACING
    GIRDER_OFFSET_FROM_EDGE SKEW_ANGLE GIRDER_SECTION_D GIRDER_SECTION_BF
    GIRDER_SECTION_TF GIRDER_SECTION_TW DECK_THICKNESS

/-- The call sequence of main(): compute_layout, create_components,
position_components, assemble, display, export. -/
def runPipeline (m : BridgeModel) : Option BridgeModel := do
  let m1 := m.compute_layout
  let m2 ← m1.create_components
  let m3 ← m2.position_components
  let m4 ← m3.assemble
  some (m4.display.exportFiles)

/-- The model state after main() has run. -/
def mainResult : Option BridgeModel := runPipeline defaultBridge

/-- Whether a recorded transformation is a rotation (an invocation of
BridgeComponent.rotate). -/
def Op.isRotation : Op → Bool
  | Op.translate _ _ _ => false
  | Op.rotate _ _ _ _ _ _ _ => true

/-- A stored handle whose transformation history contains no rotation. -/
def noRotation (os : Option Shape) : Prop :=
  ∀ ops, os = some ops → ∀ op ∈ ops, op.isRotation = false

/-- No component of the model has ever been rotated. -/
def BridgeModel.noRotationApplied (m : BridgeModel) : Prop :=
  (∀ g ∈ m.girders, noRotation g.shape)
  ∧ (∀ dk, m.deck = some dk → noRotation dk.shape)
  ∧ (∀ p ∈ m.parapets, noRotation p.shape)

/-- k successive calls of create_components on the same model. -/
def iterateCreate : ℕ → BridgeModel → Option BridgeModel
  | 0, m => some m
  | k + 1, m => m.create_components.bind (iterateCreate k)

/-- Translating a list of identical freshly created girders by their
paired positions yields, per girder, the single translation (0, y, 0). -/
lemma translateGirders_map (g0 : Girder) (hg : g0.shape = some [])
    (ys : List ℚ) :
    translateGirders (ys.map (fun _ => g0)) ys
      = some (ys.map (fun y =>
          { g0 with shape := some [Op.translate 0 y 0] })) := by
  induction ys with
  | nil => rfl
  | cons y ys ih =>
    simp [List.map_const] at ih
    simp [translateGirders, Girder.translate, applyTransform, hg,
      List.map_const, ih]

/-- Replicate form of translateGirders_map, matching the simp normal
form of a constant map. -/
lemma translateGirders_replicate (g0 : Girder) (hg : g0.shape = some [])
    (ys : List ℚ) :
    translateGirders (List.replicate ys.length g0) ys
      = some (ys.map (fun y =>
          { g0 with shape := some [Op.translate 0 y 0] })) := by
  have h := translateGirders_map g0 hg ys
  simpa [List.map_const] using h

/-- Collecting shapes over a mapped girder list when every element has a
stored shape. -/
lemma girderShapes_map {α : Type} (l : List α) (f : α → Girder)
    (s : α → Shape) (h : ∀ a, (f a).shape = some (s a)) :
    girderShapes (l.map f) = some (l.map s) := by
  induction l with
  | nil => rfl
  | cons a l ih => simp [girderShapes, h, ih]

/-- Collecting shapes over a two-parapet list with stored shapes. -/
lemma parapetShapes_pair (p0 p1 : Parapet) (s0 s1 : Shape)
    (h0 : p0.shape = some s0) (h1 : p1.shape = some s1) :
    parapetShapes [p0, p1] = some [s0, s1] := by
  simp [parapetShapes, h0, h1]

/-- Evaluation of create_components on a model whose layout attributes
are set: one fresh girder per position is appended, the deck is replaced,
and two fresh parapets with the module constants are appended. -/
lemma create_components_eq (m : BridgeModel) (ys : List ℚ) (dw : ℚ)
    (hy : m.girder_positions_y = some ys) (hw : m.deck_width = some dw) :
    m.create_components = some { m with
      girders := m.girders ++ ys.map (fun _ =>
        Girder.mk m.girder_section_d m.girder_section_bf m.girder_section_tf
          m.girder_section_tw m.span_length (some []))
      deck := some (Deck.mk dw m.deck_thickness m.span_length (some []))
      parapets := m.parapets ++
        [Parapet.mk PARAPET_WIDTH PARAPET_HEIGHT m.span_length (some []),
         Parapet.mk PARAPET_WIDTH PARAPET_HEIGHT m.span_length (some [])] } := by
  simp [BridgeModel.create_components, hy, hw, Girder.create_geometry,
    Deck.create_geometry, Parapet.create_geometry, List.range_succ]

/-- Evaluation of position_components on a model holding freshly created
components: each girder gets (0, y, 0), the deck gets
(0, -deck_width / 2, deck_z_level), and the parapets get their edge
translations at deck_z_level + deck_thickness. -/
lemma position_components_eq (m : BridgeModel) (ys : List ℚ) (dw dz : ℚ)
    (g0 : Girder) (dk : Deck) (p0 p1 : Parapet)
    (hy : m.girder_positions_y = some ys) (hw : m.deck_width = some dw)
    (hz : m.deck_z_level = some dz)
    (hgs : m.girders = ys.map (fun _ => g0)) (hg0 : g0.shape = some [])
    (hd : m.deck = some dk) (hdk : dk.shape = some [])
    (hp : m.parapets = [p0, p1]) (hp0 : p0.shape = some [])
    (hp1 : p1.shape = some []) :
    m.position_components = some { m with
      girders := ys.map (fun y => { g0 with shape := some [Op.translate 0 y 0] })
      deck := some { dk with shape := some [Op.translate 0 (-dw / 2) dz] }
      parapets := [
        { p0 with
          shape := some [Op.translate 0 (-(dw / 2) - PARAPET_WIDTH / 2) (dz + m.deck_thickness)] },
        { p1 with
          shape := some [Op.translate 0 (dw / 2 - PARAPET_WIDTH / 2) (dz + m.deck_thickness)] }] } := by
  simp [BridgeModel.position_components, hy, hw, hz, hgs, hd, hp,
    translateGirders_map g0 hg0, translateGirders_replicate g0 hg0,
    Deck.translate, Parapet.translate, applyTransform, hdk, hp0, hp1,
    List.map_const]

/-- Evaluation of assemble when every component has a stored shape. -/
lemma assemble_eq (m : BridgeModel) (gs : List Shape) (dk : Deck)
    (ds : Shape) (ps : List Shape) (hg : girderShapes m.girders = some gs)
    (hd : m.deck = some dk) (hds : dk.shape = some ds)
    (hp : parapetShapes m.parapets = some ps) :
    m.assemble = some { m with assembly_shape := some (gs ++ [ds] ++ ps) } := by
  simp [BridgeModel.assemble, hg, hd, hds, hp]

/-- The pipeline composes its four state-changing stages; display and
export do not change the model. -/
lemma pipeline_steps (m0 M2 M3 M4 : BridgeModel)
    (h2 : m0.compute_layout.create_components = some M2)
    (h3 : M2.position_components = some M3)
    (h4 : M3.assemble = some M4) :
    runPipeline m0 = some (M4.display.exportFiles) := by
  simp [runPipeline, h2, h3, h4]

/-- Full symbolic evaluation of the main() call sequence on a freshly
constructed model: the pipeline always succeeds and produces one girder
per computed position translated by (0, y, 0), a deck of the computed
width translated by (0, -deck_width / 2, girder depth), two parapets at
the deck edges translated to deck level plus thickness, and a compound
of all six shape groups in girders-deck-parapets order. -/
lemma runPipeline_mk (sp : ℚ) (n : ℤ) (s ov sk d bf tf tw th : ℚ) :
    runPipeline (mkBridgeModel sp n s ov sk d bf tf tw th) = some
      { span_length := sp
        n_girders := n
        spacing := s
        overhang := ov
        skew_angle := sk
        girder_section_d := d
        girder_section_bf := bf
        girder_section_tf := tf
        girder_section_tw := tw
        deck_thickness := th
        girders := (girderPositions n s).map (fun y =>
          Girder.mk d bf tf tw sp (some [Op.translate 0 y 0]))
        parapets := [
          Parapet.mk PARAPET_WIDTH PARAPET_HEIGHT sp
            (some [Op.translate 0 (-(deckWidth n s ov / 2) - PARAPET_WIDTH / 2) (d + th)]),
          Parapet.mk PARAPET_WIDTH PARAPET_HEIGHT sp
            (some [Op.translate 0 (deckWidth n s ov / 2 - PARAPET_WIDTH / 2) (d + th)])]
        deck := some (Deck.mk (deckWidth n s ov) th sp
          (some [Op.translate 0 (-deckWidth n s ov / 2) d]))
        assembly_shape := some (
          (girderPositions n s).map (fun y => [Op.translate 0 y 0])
          ++ [[Op.translate 0 (-deckWidth n s ov / 2) d]]
          ++ [[Op.translate 0 (-(deckWidth n s ov / 2) - PARAPET_WIDTH / 2) (d + th)],
              [Op.translate 0 (deckWidth n s ov / 2 - PARAPET_WIDTH / 2) (d + th)]])
        deck_width := some (deckWidth n s ov)
        girder_positions_y := some (girderPositions n s)
        deck_z_level := some d } := by
  refine pipeline_steps _ _ _ _
    (create_components_eq _ (girderPositions n s) (deckWidth n s ov) rfl rfl)
    (position_components_eq _ (girderPositions n s) (deckWidth n s ov) d
      (Girder.mk d bf tf tw sp (some []))
      (Deck.mk (deckWidth n s ov) th sp (some []))
      (Parapet.mk PARAPET_WIDTH PARAPET_HEIGHT sp (some []))
      (Parapet.mk PARAPET_WIDTH PARAPET_HEIGHT sp (some []))
      rfl rfl rfl rfl rfl rfl rfl rfl rfl rfl)
    (assemble_eq _ _ _ _ _ (girderShapes_map _ _ _ (fun a => rfl)) rfl rfl
      (parapetShapes_pair _ _ _ _ rfl rfl))

/-- The girder position list has one entry per range index. -/
lemma girderPositions_length (n : ℤ) (s : ℚ) :
    (girderPositions n s).length = n.toNat := by
  simp only [girderPositions, List.length_map, List.length_range]

/-- Closed form of the i-th girder position. -/
lemma girderPositions_getElem (n : ℤ) (s : ℚ) (i : ℕ)
    (h : i < (girderPositions n s).length) :
    (girderPositions n s)[i] = -s * ((n : ℚ) - 1) / 2 + (i : ℚ) * s := by
  simp only [girderPositions, List.getElem_map, List.getElem_range]

/-- Length bookkeeping of one create_components call: it appends, never
replaces, the girder and parapet lists, and preserves the layout. -/
lemma create_lengths (m : BridgeModel) (ys : List ℚ) (dw : ℚ)
    (hy : m.girder_positions_y = some ys) (hw : m.deck_width = some dw) :
    ∃ m2, m.create_components = some m2
      ∧ m2.girders.length = m.girders.length + ys.length
      ∧ m2.parapets.length = m.parapets.length + 2
      ∧ m2.girder_positions_y = some ys ∧ m2.deck_width = some dw := by
  refine ⟨_, create_components_eq m ys dw hy hw, ?_, ?_, ?_, ?_⟩ <;>
    simp [hy, hw]

/-- Length bookkeeping of k successive create_components calls. -/
lemma iterateCreate_lengths (k : ℕ) (m : BridgeModel) (ys : List ℚ) (dw : ℚ)
    (hy : m.girder_positions_y = some ys) (hw : m.deck_width = some dw) :
    ∃ m2, iterateCreate k m = some m2
      ∧ m2.girders.length = m.girders.length + k * ys.length
      ∧ m2.parapets.length = m.parapets.length + 2 * k := by
  induction k generalizing m with
  | zero => exact ⟨m, rfl, by omega, by omega⟩
  | succ k ih =>
    obtain ⟨m1, h1, hg1, hp1, hy1, hw1⟩ := create_lengths m ys dw hy hw
    obtain ⟨m2, h2, hg2, hp2⟩ := ih m1 hy1 hw1
    refine ⟨m2, ?_, ?_, ?_⟩
    · simp [iterateCreate, h1, h2]
    · rw [Nat.succ_mul]
      omega
    · omega

/-- C1: for every BridgeParameters, compute_layout sets deck_width to
spacing * (n_girders - 1) + 2 * overhang; for n_girders = 1 this is
2 * overhang, and for n_girders = 3, spacing = 3000, overhang = 500 it
is 7000. -/
theorem claim_C1_deck_width_formula :
    (∀ m : BridgeModel, (m.compute_layout).deck_width
        = some (m.spacing * ((m.n_girders : ℚ) - 1) + 2 * m.overhang))
    ∧ (∀ sp s ov sk d bf tf tw th : ℚ,
        ((mkBridgeModel sp 1 s ov sk d bf tf tw th).compute_layout).deck_width
          = some (2 * ov))
    ∧ ((mkBridgeModel 12000 3 3000 500 10 900 300 16 10 200).compute_layout).deck_width
        = some 7000 := by
  refine ⟨fun m => rfl, ?_, ?_⟩
  · intro sp s ov sk d bf tf tw th
    simp [mkBridgeModel, BridgeModel.compute_layout, deckWidth]
  · simp [mkBridgeModel, BridgeModel.compute_layout, deckWidth]
    norm_num

/-- C2: for n_girders at least 1 and positive spacing, the girder
Y-position list has exactly n_girders entries, starts at
-spacing * (n_girders - 1) / 2, steps by exactly spacing, increases
strictly, and is symmetric about 0; for n_girders = 1 it is [0], and for
n_girders = 4, spacing = 2500 it is [-3750, -1250, 1250, 3750]. -/
theorem claim_C2_girder_positions :
    (∀ m : BridgeModel, 1 ≤ m.n_girders → 0 < m.spacing →
      ∃ ys, (m.compute_layout).girder_positions_y = some ys ∧
        (ys.length : ℤ) = m.n_girders ∧
        (∀ h : 0 < ys.length,
          ys[0] = -m.spacing * ((m.n_girders : ℚ) - 1) / 2) ∧
        (∀ i, (hi : i + 1 < ys.length) → ys[i + 1] = ys[i] + m.spacing) ∧
        (∀ i, (hi : i + 1 < ys.length) → ys[i] < ys[i + 1]) ∧
        (∀ i, (hi : i < ys.length) → ys[i] + ys[ys.length - 1 - i] = 0) ∧
        (m.n_girders = 1 → ys = [0]))
    ∧ ((mkBridgeModel 15000 4 2500 500 0 1000 350 20 12 250).compute_layout).girder_positions_y
        = some [-3750, -1250, 1250, 3750] := by
  constructor
  · intro m h1 h2
    refine ⟨girderPositions m.n_girders m.spacing, rfl, ?_, ?_, ?_, ?_, ?_, ?_⟩
    · rw [girderPositions_length]
      omega
    · intro h
      rw [girderPositions_getElem]
      norm_num
    · intro i hi
      rw [girderPositions_getElem, girderPositions_getElem]
      push_cast
      ring
    · intro i hi
      rw [girderPositions_getElem, girderPositions_getElem]
      have hstep : (i : ℚ) * m.spacing < ((i : ℚ) + 1) * m.spacing := by
        apply mul_lt_mul_of_pos_right _ h2
        norm_num
      push_cast
      linarith
    · intro i hi
      rw [girderPositions_getElem, girderPositions_getElem]
      have h5 : ((girderPositions m.n_girders m.spacing).length - 1 - i : ℕ)
          = (m.n_girders.toNat - 1 - i : ℕ) := by
        have hL := girderPositions_length m.n_girders m.spacing
        omega
      rw [h5]
      have h6 : ((m.n_girders.toNat - 1 - i : ℕ) : ℤ)
          = m.n_girders - 1 - (i : ℤ) := by
        have hL := girderPositions_length m.n_girders m.spacing
        omega
      have h7 : ((m.n_girders.toNat - 1 - i : ℕ) : ℚ)
          = (m.n_girders : ℚ) - 1 - (i : ℚ) := by
        have h8 := congrArg (fun z : ℤ => (z : ℚ)) h6
        push_cast at h8
        exact h8
      rw [h7]
      ring
    · intro hn
      simp only [girderPositions, hn]
      norm_num [List.range_succ]
  · simp [mkBridgeModel, BridgeModel.compute_layout, girderPositions,
      List.range_succ]
    norm_num

/-- Witness for C2 at the default configuration. -/
theorem claim_C2_girder_positions_witness :
    ∃ ys, ((mkBridgeModel 12000 3 3000 500 10 900 300 16 10 200).compute_layout).girder_positions_y
        = some ys
      ∧ (ys.length : ℤ) = (mkBridgeModel 12000 3 3000 500 10 900 300 16 10 200).n_girders := by
  obtain ⟨ys, ha, hb, -⟩ := claim_C2_girder_positions.1
    (mkBridgeModel 12000 3 3000 500 10 900 300 16 10 200)
    (by norm_num [mkBridgeModel]) (by norm_num [mkBridgeModel])
  exact ⟨ys, ha, hb⟩

/-- C3: after create_components, position_components translates girder i
by (0, Y_i, 0), the deck by (0, -deck_width / 2, deck_z_level), parapet 0
by (0, -deck_width / 2 - parapet_width / 2, deck_z_level + deck_thickness)
and parapet 1 by (0, deck_width / 2 - parapet_width / 2,
deck_z_level + deck_thickness), where deck_z_level is the girder depth. -/
theorem claim_C3_position_translations (sp : ℚ) (n : ℤ)
    (s ov sk d bf tf tw th : ℚ) :
    ∃ m2 m3,
      ((mkBridgeModel sp n s ov sk d bf tf tw th).compute_layout).create_components
          = some m2
      ∧ m2.position_components = some m3
      ∧ m3.girders.map (fun g => g.shape)
          = (girderPositions n s).map (fun y => some [Op.translate 0 y 0])
      ∧ m3.deck.map (fun dk => dk.shape)
          = some (some [Op.translate 0 (-deckWidth n s ov / 2) d])
      ∧ m3.parapets.map (fun p => p.shape)
          = [some [Op.translate 0 (-(deckWidth n s ov / 2) - PARAPET_WIDTH / 2) (d + th)],
             some [Op.translate 0 (deckWidth n s ov / 2 - PARAPET_WIDTH / 2) (d + th)]] := by
  refine ⟨_, _,
    create_components_eq _ (girderPositions n s) (deckWidth n s ov) rfl rfl,
    position_components_eq _ (girderPositions n s) (deckWidth n s ov) d
      (Girder.mk d bf tf tw sp (some []))
      (Deck.mk (deckWidth n s ov) th sp (some []))
      (Parapet.mk PARAPET_WIDTH PARAPET_HEIGHT sp (some []))
      (Parapet.mk PARAPET_WIDTH PARAPET_HEIGHT sp (some []))
      rfl rfl rfl rfl rfl rfl rfl rfl rfl rfl, ?_, ?_, ?_⟩
  · simp
  · simp
  · simp [mkBridgeModel, BridgeModel.compute_layout]

/-- C4: compute_layout always sets the deck Z elevation to the girder
section depth, 900 in the default configuration. -/
theorem claim_C4_deck_z_level :
    (∀ m : BridgeModel, (m.compute_layout).deck_z_level
        = some m.girder_section_d)
    ∧ (defaultBridge.compute_layout).deck_z_level = some 900 :=
  ⟨fun _ => rfl, rfl⟩

/-- C5: under the default configuration the pipeline creates exactly
3 girders, 1 deck and 2 parapets, the compound holds exactly those
6 solids, parapet 0 is translated to Y = -3650 and parapet 1 to
Y = 3350, both at Z = 1100. -/
theorem claim_C5_default_end_to_end :
    (mainResult.map fun m => m.girders.length) = some 3
    ∧ (mainResult.map fun m => m.deck.isSome) = some true
    ∧ (mainResult.map fun m => m.parapets.length) = some 2
    ∧ (mainResult.map fun m => m.assembly_shape.map List.length)
        = some (some 6)
    ∧ (mainResult.map fun m => m.parapets.map fun p => p.shape)
        = some [some [Op.translate 0 (-3650) 1100],
                some [Op.translate 0 3350 1100]]
    ∧ (mainResult.map fun m => m.assembly_shape)
        = some (some [[Op.translate 0 (-3000) 0], [Op.translate 0 0 0],
                      [Op.translate 0 3000 0], [Op.translate 0 (-3500) 900],
                      [Op.translate 0 (-3650) 1100],
                      [Op.translate 0 3350 1100]]) := by
  have h := runPipeline_mk SPAN_LENGTH_L N_GIRDERS GIRDER_CENTROID_SPACING
    GIRDER_OFFSET_FROM_EDGE SKEW_ANGLE GIRDER_SECTION_D GIRDER_SECTION_BF
    GIRDER_SECTION_TF GIRDER_SECTION_TW DECK_THICKNESS
  simp only [mainResult, defaultBridge]
  rw [h]
  refine ⟨?_, ?_, ?_, ?_, ?_, ?_⟩ <;>
    simp [girderPositions, deckWidth, N_GIRDERS, GIRDER_CENTROID_SPACING,
      GIRDER_OFFSET_FROM_EDGE, SPAN_LENGTH_L, GIRDER_SECTION_D,
      DECK_THICKNESS, PARAPET_WIDTH, PARAPET_HEIGHT, List.range_succ] <;>
    norm_num

/-- C6: compute_layout is a pure function of the parameters: models that
agree on n_girders, spacing, overhang and girder depth get identical
derived layouts, and running it twice equals running it once. -/
theorem claim_C6_layout_deterministic :
    (∀ m1 m2 : BridgeModel, m1.n_girders = m2.n_girders →
      m1.spacing = m2.spacing → m1.overhang = m2.overhang →
      m1.girder_section_d = m2.girder_section_d →
      (m1.compute_layout).deck_width = (m2.compute_layout).deck_width
      ∧ (m1.compute_layout).girder_positions_y
          = (m2.compute_layout).girder_positions_y
      ∧ (m1.compute_layout).deck_z_level = (m2.compute_layout).deck_z_level)
    ∧ (∀ m : BridgeModel, (m.compute_layout).compute_layout
        = m.compute_layout) := by
  constructor
  · intro m1 m2 h1 h2 h3 h4
    refine ⟨?_, ?_, ?_⟩ <;>
      simp [BridgeModel.compute_layout, h1, h2, h3, h4]
  · intro m
    rfl

/-- Witness for C6: two models sharing the layout-relevant parameters but
differing elsewhere produce the same derived layout. -/
theorem claim_C6_layout_deterministic_witness :
    (defaultBridge.compute_layout).deck_width
      = ((mkBridgeModel 15000 3 3000 500 0 900 1 2 3 250).compute_layout).deck_width
    ∧ (defaultBridge.compute_layout).girder_positions_y
      = ((mkBridgeModel 15000 3 3000 500 0 900 1 2 3 250).compute_layout).girder_positions_y
    ∧ (defaultBridge.compute_layout).deck_z_level
      = ((mkBridgeModel 15000 3 3000 500 0 900 1 2 3 250).compute_layout).deck_z_level :=
  claim_C6_layout_deterministic.1 defaultBridge
    (mkBridgeModel 15000 3 3000 500 0 900 1 2 3 250) rfl rfl rfl rfl

/-- C7: the main flow never rotates any component; the skew angle is
stored on the final model but no component's transformation history
contains a rotation. -/
theorem claim_C7_no_rotation (sp : ℚ) (n : ℤ) (s ov sk d bf tf tw th : ℚ) :
    ∃ mf, runPipeline (mkBridgeModel sp n s ov sk d bf tf tw th) = some mf
      ∧ mf.skew_angle = sk
      ∧ mf.noRotationApplied := by
  refine ⟨_, runPipeline_mk sp n s ov sk d bf tf tw th, rfl, ?_, ?_, ?_⟩
  · rintro g hg ops hops op hop
    simp only [List.mem_map] at hg
    obtain ⟨y, -, rfl⟩ := hg
    obtain rfl := Option.some.inj hops
    rw [List.mem_singleton] at hop
    subst hop
    rfl
  · rintro dk hdk ops hops op hop
    obtain rfl := Option.some.inj hdk
    obtain rfl := Option.some.inj hops
    rw [List.mem_singleton] at hop
    subst hop
    rfl
  · rintro p hp ops hops op hop
    simp only [List.mem_cons, List.not_mem_nil, or_false] at hp
    rcases hp with rfl | rfl <;>
    · obtain rfl := Option.some.inj hops
      rw [List.mem_singleton] at hop
      subst hop
      rfl

/-- C8: with n_girders = 0, compute_layout yields an empty position list
and a deck width of 2 * overhang - spacing, with no validation. -/
theorem claim_C8_zero_girders (m : BridgeModel) (h : m.n_girders = 0) :
    (m.compute_layout).girder_positions_y = some []
    ∧ (m.compute_layout).deck_width
        = some (2 * m.overhang - m.spacing) := by
  constructor
  · simp [BridgeModel.compute_layout, girderPositions, h]
  · simp [BridgeModel.compute_layout, deckWidth, h]
    ring

/-- Witness for C8 at a concrete zero-girder configuration. -/
theorem claim_C8_zero_girders_witness :
    ((mkBridgeModel 12000 0 3000 500 10 900 300 16 10 200).compute_layout).girder_positions_y
        = some []
    ∧ ((mkBridgeModel 12000 0 3000 500 10 900 300 16 10 200).compute_layout).deck_width
        = some (2 * (mkBridgeModel 12000 0 3000 500 10 900 300 16 10 200).overhang
            - (mkBridgeModel 12000 0 3000 500 10 900 300 16 10 200).spacing) :=
  claim_C8_zero_girders (mkBridgeModel 12000 0 3000 500 10 900 300 16 10 200) rfl

/-- C9: parapets are always created with the module constants
PARAPET_WIDTH = 300 and PARAPET_HEIGHT = 1000, for every constructor
argument set. -/
theorem claim_C9_parapet_constants (sp : ℚ) (n : ℤ)
    (s ov sk d bf tf tw th : ℚ) :
    ∃ m2, ((mkBridgeModel sp n s ov sk d bf tf tw th).compute_layout).create_components
        = some m2
      ∧ m2.parapets.map (fun p => (p.width, p.height))
          = [(300, 1000), (300, 1000)]
      ∧ PARAPET_WIDTH = 300 ∧ PARAPET_HEIGHT = 1000 := by
  refine ⟨_, create_components_eq _ (girderPositions n s) (deckWidth n s ov) rfl rfl,
    ?_, rfl, rfl⟩
  simp [PARAPET_WIDTH, PARAPET_HEIGHT, mkBridgeModel, BridgeModel.compute_layout]

/-- C10: create_components appends rather than replaces: each call adds
one girder per position and two parapets, so k calls on a fresh model
give k * n_girders girders and 2 * k parapets. -/
theorem claim_C10_create_appends :
    (∀ (m : BridgeModel) (ys : List ℚ) (dw : ℚ),
      m.girder_positions_y = some ys → m.deck_width = some dw →
      ∃ m2, m.create_components = some m2
        ∧ m2.girders.length = m.girders.length + ys.length
        ∧ m2.parapets.length = m.parapets.length + 2)
    ∧ (∀ (sp : ℚ) (n : ℤ) (s ov sk d bf tf tw th : ℚ) (k : ℕ),
      ∃ m2, iterateCreate k ((mkBridgeModel sp n s ov sk d bf tf tw th).compute_layout)
          = some m2
        ∧ m2.girders.length = k * n.toNat
        ∧ m2.parapets.length = 2 * k) := by
  constructor
  · intro m ys dw hy hw
    obtain ⟨m2, h, hg, hp, -, -⟩ := create_lengths m ys dw hy hw
    exact ⟨m2, h, hg, hp⟩
  · intro sp n s ov sk d bf tf tw th k
    obtain ⟨m2, h, hg, hp⟩ := iterateCreate_lengths k
      ((mkBridgeModel sp n s ov sk d bf tf tw th).compute_layout)
      (girderPositions n s) (deckWidth n s ov) rfl rfl
    refine ⟨m2, h, ?_, ?_⟩
    · rw [hg]
      simp [mkBridgeModel, BridgeModel.compute_layout, girderPositions_length]
    · rw [hp]
      simp [mkBridgeModel, BridgeModel.compute_layout]

/-- Witness for C10 at the default layout. -/
theorem claim_C10_create_appends_witness :
    ∃ m2, (defaultBridge.compute_layout).create_components = some m2
      ∧ m2.girders.length = (defaultBridge.compute_layout).girders.length
          + (girderPositions 3 3000).length
      ∧ m2.parapets.length = (defaultBridge.compute_layout).parapets.length + 2 :=
  claim_C10_create_appends.1 (defaultBridge.compute_layout)
    (girderPositions 3 3000) (deckWidth 3 3000 500) rfl rfl

end BridgeSpec
